import Mathlib

/-!
Shallow embedding of the cart/session state-management module of the
storefront front-end (js/script.js, with the session principal read from
js/auth.js). The persistent key-value store is browser `localStorage`,
modelled as an association list from keys to stored text; stored text is
classified by how `JSON.parse` behaves on it. Every cart operation
re-reads the current principal and storage fresh, exactly as the source
does.
-/

namespace Ecommerce

/-- Session principal stored under the `activeUser` key (js/auth.js):
`{ name, email, password, address }`. Identity is the `email`. -/
structure Principal where
  name : String
  email : String
  password : String
  address : String
deriving Repr, DecidableEq

/-- A catalog product as fetched from the store API; the fields the cart
snapshots (`{id, title, price, image, description}`). JS numbers are
modelled as `Int` for `id` and `Rat` for `price`; no claim here depends on
floating-point rounding. -/
structure Product where
  id : Int
  title : String
  price : Rat
  image : String
  description : String
deriving Repr, DecidableEq

/-- A cart line item: a product snapshot augmented with `qty`
(`{ ...product, qty }`). -/
structure LineItem where
  id : Int
  title : String
  price : Rat
  image : String
  description : String
  qty : Int
deriving Repr, DecidableEq

/-- Source `{ ...product, qty: n }`: the object literal built by `addToCart`. -/
def Product.withQty (p : Product) (n : Int) : LineItem :=
  ⟨p.id, p.title, p.price, p.image, p.description, n⟩

/-- The text stored at a `localStorage` key, classified by how the module
reads it back: `emptyStr` is the empty string (falsy in JS, so
`getItem(k) || fallback` takes the fallback); `cartJson items` is
`JSON.stringify` of an array of line-item objects, which `JSON.parse`
inverts; `malformed` is any other non-empty text on which `JSON.parse`
throws. (Non-empty text that parses as JSON but not as a line-item array
is outside this model; no claim depends on it.) -/
inductive StoredStr where
  | emptyStr : StoredStr
  | cartJson : List LineItem → StoredStr
  | malformed : StoredStr
deriving Repr, DecidableEq

/-- Browser `localStorage`: a finite map from string keys to stored text, as an
association list with the most recent write first. -/
abbrev Store := List (String × StoredStr)

/-- Source `localStorage.getItem(k)`: the stored value, or `none` for JS `null`. -/
def getItem (s : Store) (k : String) : Option StoredStr :=
  (s.find? (fun kv => kv.1 = k)).map (fun kv => kv.2)

/-- Source `localStorage.setItem(k, v)`: overwrite any previous entry at `k`. -/
def setItem (s : Store) (k : String) (v : StoredStr) : Store :=
  (k, v) :: s.filter (fun kv => kv.1 ≠ k)

/-- Cart-module state: the persistent store together with the number of
times the dependent views were refreshed (each `saveCart` ends with
`updateCartUI(); renderCheckout()`, counted as one refresh). -/
structure St where
  store : Store
  refreshes : Nat
deriving Repr, DecidableEq

/-- A JavaScript exception escaping a cart operation: here only
`JSON.parse` throwing on malformed stored text, which the module does not
catch. -/
inductive JsError where
  | parseError : JsError
deriving Repr, DecidableEq

/-- Source `getCartKey()`:
`user ? \x7bfs_cart_${user.email}\x7d : 'fs_cart_guest'`, with `user` the
current principal (`getCurrentUser()`). -/
def getCartKey (user : Option Principal) : String :=
  match user with
  | some u => "fs_cart_" ++ u.email
  | none => "fs_cart_guest"

/-- Source `getCart()`: `JSON.parse(localStorage.getItem(getCartKey()) || '[]')`.
`getItem` yields `null` when the key is absent; both `null` and the empty
string are falsy, so the fallback `'[]'` parses to the empty array. A
non-empty unparseable value makes `JSON.parse` throw and the exception
propagates. -/
def getCart (user : Option Principal) (store : Store) :
    Except JsError (List LineItem) :=
  match getItem store (getCartKey user) with
  | none => .ok []
  | some .emptyStr => .ok []
  | some (.cartJson items) => .ok items
  | some .malformed => .error .parseError

/-- Source `saveCart(cart)`: `localStorage.setItem(getCartKey(),
JSON.stringify(cart)); updateCartUI(); renderCheckout();`. -/
def saveCart (user : Option Principal) (st : St) (cart : List LineItem) : St :=
  { store := setItem st.store (getCartKey user) (.cartJson cart),
    refreshes := st.refreshes + 1 }

/-- The branch `addToCart` takes, i.e. which floating message it shows:
`'Please login first!'` (danger), `'Product already in cart!'` (danger),
or `'Product added to cart!'` (success). -/
inductive AddResult where
  | unauthenticated : AddResult
  | duplicateItem : AddResult
  | added : AddResult
deriving Repr, DecidableEq

/-- Source `addToCart(product)`: returns after the login check without touching
storage when no principal is active; otherwise re-reads the cart, rejects
a duplicate id (`cart.some(item => item.id === product.id)`), else pushes
`{ ...product, qty: 1 }` and saves. -/
def addToCart (user : Option Principal) (st : St) (product : Product) :
    Except JsError (AddResult × St) :=
  match user with
  | none => .ok (.unauthenticated, st)
  | some _ => do
    let cart ← getCart user st.store
    if cart.any (fun item => item.id = product.id) then
      .ok (.duplicateItem, st)
    else
      .ok (.added, saveCart user st (cart ++ [product.withQty 1]))

/-- Replace the first line item whose `id` matches with its `qty` set to
`newQty`: the in-place mutation `item.qty += change` of the item located
by `cart.find(i => i.id === id)`. -/
def setQtyFirst (id : Int) (newQty : Int) : List LineItem → List LineItem
  | [] => []
  | x :: xs =>
    if x.id = id then { x with qty := newQty } :: xs
    else x :: setQtyFirst id newQty xs

/-- Source `updateQuantity(id, change)`: re-reads the cart; `if (!item) return;`
when no line item matches (no save, no refresh); otherwise adds `change`
to the found item's `qty`, filters out every item with that `id` when the
result is `<= 0`, and saves. -/
def updateQuantity (user : Option Principal) (st : St) (id delta : Int) :
    Except JsError St := do
  let cart ← getCart user st.store
  match cart.find? (fun i => i.id = id) with
  | none => .ok st
  | some item =>
    let newQty := item.qty + delta
    if newQty ≤ 0 then
      .ok (saveCart user st (cart.filter (fun i => i.id ≠ id)))
    else
      .ok (saveCart user st (setQtyFirst id newQty cart))

/-- Source `removeItem(id)`: `saveCart(getCart().filter(item => item.id !== id))`. -/
def removeItem (user : Option Principal) (st : St) (id : Int) :
    Except JsError St := do
  let cart ← getCart user st.store
  .ok (saveCart user st (cart.filter (fun item => item.id ≠ id)))

/-- Source `cartCount()`: `getCart().reduce((sum, item) => sum + item.qty, 0)`. -/
def cartCount (user : Option Principal) (store : Store) :
    Except JsError Int := do
  let cart ← getCart user store
  .ok (cart.foldl (fun sum item => sum + item.qty) 0)

/-- The cart invariant of the data model: no two line items share an `id`,
and every line item present has a positive `qty`. -/
def CartInv (cart : List LineItem) : Prop :=
  (cart.map (fun item => item.id)).Nodup ∧ ∀ item ∈ cart, 0 < item.qty

/-- A principal whose (non-empty) email is the literal string `"guest"`. -/
def guestImpostor : Principal := ⟨"Guest", "guest", "pw1234", "addr"⟩

/-- A sample catalog product, for concrete witnesses. -/
def pSample : Product := ⟨1, "Shirt", 10, "img", "desc"⟩

/-- A sample registered principal, for concrete witnesses. -/
def uSample : Principal := ⟨"Ann", "a@b.c", "pw1234", "addr"⟩

/-- A sample line item (id 1, qty 2), for concrete witnesses. -/
def itemSample : LineItem := ⟨1, "Shirt", 10, "img", "desc", 2⟩

/-- A sample state: the guest namespace holds `[itemSample]`, no refresh
has happened yet. -/
def stSample : St := ⟨[("fs_cart_guest", .cartJson [itemSample])], 0⟩

/- ===================== Helper lemmas ===================== -/

theorem except_bind_ok {α β : Type} (a : α) (f : α → Except JsError β) :
    (Except.ok a >>= f) = f a := rfl

theorem getItem_setItem_self (s : Store) (k : String) (v : StoredStr) :
    getItem (setItem s k v) k = some v := by
  simp [getItem, setItem, List.find?]

/-- Reading the cart back right after saving it yields the saved cart:
`JSON.parse` inverts `JSON.stringify` on an array of line items. -/
theorem getCart_saveCart (user : Option Principal) (st : St)
    (cart : List LineItem) :
    getCart user (saveCart user st cart).store = .ok cart := by
  simp [getCart, saveCart, getItem_setItem_self]

/-- Unfolding of `addToCart` with an active principal, over the cart the
storage read yields. -/
theorem addToCart_some (u : Principal) (st : St) (p : Product)
    (cart : List LineItem) (hget : getCart (some u) st.store = .ok cart) :
    addToCart (some u) st p =
      if cart.any (fun item => item.id = p.id) then .ok (.duplicateItem, st)
      else .ok (.added, saveCart (some u) st (cart ++ [p.withQty 1])) := by
  unfold addToCart
  rw [hget]
  rfl

/-- Unfolding of `updateQuantity` when the id is found, over the cart the
storage read yields. -/
theorem updateQuantity_found (user : Option Principal) (st : St)
    (id delta : Int) (cart : List LineItem) (item : LineItem)
    (hget : getCart user st.store = .ok cart)
    (hfind : cart.find? (fun i => i.id = id) = some item) :
    updateQuantity user st id delta =
      if item.qty + delta ≤ 0 then
        .ok (saveCart user st (cart.filter (fun i => i.id ≠ id)))
      else .ok (saveCart user st (setQtyFirst id (item.qty + delta) cart)) := by
  unfold updateQuantity
  rw [hget]
  simp only [except_bind_ok]
  rw [hfind]

/-- Unfolding of `updateQuantity` when the id is absent: the early `return`, so no
save and no refresh. -/
theorem updateQuantity_not_found (user : Option Principal) (st : St)
    (id delta : Int) (cart : List LineItem)
    (hget : getCart user st.store = .ok cart)
    (hfind : cart.find? (fun i => i.id = id) = none) :
    updateQuantity user st id delta = .ok st := by
  unfold updateQuantity
  rw [hget]
  simp only [except_bind_ok]
  rw [hfind]

/-- Setting the first matching item's qty does not touch the ids. -/
theorem setQtyFirst_map_id (id q : Int) (l : List LineItem) :
    (setQtyFirst id q l).map (fun item => item.id) =
      l.map (fun item => item.id) := by
  induction l with
  | nil => rfl
  | cons x xs ih =>
    unfold setQtyFirst
    by_cases h : x.id = id
    · rw [if_pos h]
      rfl
    · rw [if_neg h]
      simpa using ih

/-- Setting the first matching item's qty to a positive value keeps every
qty positive. -/
theorem setQtyFirst_qty_pos (id q : Int) (l : List LineItem) (hq : 0 < q)
    (h : ∀ x ∈ l, 0 < x.qty) : ∀ x ∈ setQtyFirst id q l, 0 < x.qty := by
  induction l with
  | nil => intro x hx; cases hx
  | cons y ys ih =>
    intro x hx
    unfold setQtyFirst at hx
    by_cases hy : y.id = id
    · rw [if_pos hy] at hx
      rcases List.mem_cons.mp hx with h1 | h2
      · rw [h1]; exact hq
      · exact h x (List.mem_cons_of_mem _ h2)
    · rw [if_neg hy] at hx
      rcases List.mem_cons.mp hx with h1 | h2
      · rw [h1]; exact h y (List.mem_cons_self _ _)
      · exact ih (fun z hz => h z (List.mem_cons_of_mem _ hz)) x h2

/-- Filtering preserves the cart invariant. -/
theorem cartInv_filter (cart : List LineItem) (f : LineItem → Bool)
    (h : CartInv cart) : CartInv (cart.filter f) := by
  obtain ⟨hnd, hq⟩ := h
  constructor
  · exact List.Nodup.sublist
      (List.Sublist.map _ (List.filter_sublist cart)) hnd
  · intro x hx
    exact hq x (List.mem_of_mem_filter hx)

/-- Appending a fresh product with qty 1 preserves the cart invariant. -/
theorem cartInv_append_new (cart : List LineItem) (p : Product)
    (h : CartInv cart)
    (hany : cart.any (fun item => item.id = p.id) = false) :
    CartInv (cart ++ [p.withQty 1]) := by
  obtain ⟨hnd, hq⟩ := h
  rw [List.any_eq_false] at hany
  have hnotin : p.id ∉ cart.map (fun item => item.id) := by
    intro hmem
    obtain ⟨item, hitem, hid⟩ := List.mem_map.mp hmem
    have hne : item.id ≠ p.id := by simpa using hany item hitem
    exact hne hid
  constructor
  · rw [List.map_append]
    rw [List.nodup_append]
    refine ⟨hnd, List.nodup_singleton _, fun a ha hb => ?_⟩
    simp only [List.map_cons, List.map_nil, List.mem_singleton] at hb
    subst hb
    exact hnotin ha
  · intro x hx
    rcases List.mem_append.mp hx with h1 | h2
    · exact hq x h1
    · rw [List.mem_singleton.mp h2]
      exact zero_lt_one

/- ===================== Claim theorems ===================== -/

/-- C1 counterexample: the resolver's guest key is `"fs_cart_guest"`, not
`"cart_guest"`, and an authenticated key carries the `"fs_cart_"` prefix,
not `"cart_"` (the repository's own test expects `'fs_cart_guest'`). -/
theorem C1_counterexample :
    getCartKey none ≠ "cart_guest" ∧
    getCartKey (some ⟨"Ann", "a@b.c", "pw1234", "addr"⟩) ≠
      "cart_" ++ "a@b.c" := by
  decide

/-- C1 (amended): `getCartKey` returns `"fs_cart_guest"` when no principal
is active and `"fs_cart_" ++ email` when a principal is active. -/
theorem C1_key_resolution :
    getCartKey none = "fs_cart_guest" ∧
    ∀ u : Principal, getCartKey (some u) = "fs_cart_" ++ u.email :=
  ⟨rfl, fun _ => rfl⟩

/-- C2 counterexample: with a non-empty unparseable value stored at the
resolved key, `getCart` propagates the `JSON.parse` exception instead of
returning the empty sequence. -/
theorem C2_counterexample :
    getCart none [("fs_cart_guest", StoredStr.malformed)] =
      .error .parseError ∧
    getCart none [("fs_cart_guest", StoredStr.malformed)] ≠
      .ok ([] : List LineItem) :=
  ⟨rfl, fun h => Except.noConfusion h⟩

/-- C2 (amended): `getCart` returns the empty sequence when the key is
absent or holds the empty string (both are falsy, so the `'[]'` fallback
applies), but raises when the stored value is non-empty and unparseable:
the code has no catch around `JSON.parse`. -/
theorem C2_read_behavior (user : Option Principal) (store : Store) :
    (getItem store (getCartKey user) = none → getCart user store = .ok []) ∧
    (getItem store (getCartKey user) = some .emptyStr →
      getCart user store = .ok []) ∧
    (getItem store (getCartKey user) = some .malformed →
      getCart user store = .error .parseError) := by
  refine ⟨fun h => ?_, fun h => ?_, fun h => ?_⟩ <;> simp [getCart, h]

/-- C2 witness: concrete stores exercising every case of the theorem. -/
theorem C2_read_behavior_witness :
    getCart none [] = .ok [] ∧
    getCart none [("fs_cart_guest", StoredStr.emptyStr)] = .ok [] ∧
    getCart (some ⟨"Ann", "a@b.c", "pw1234", "addr"⟩)
      [("fs_cart_a@b.c", StoredStr.malformed)] = .error .parseError :=
  ⟨(C2_read_behavior none []).1 rfl,
   (C2_read_behavior none [("fs_cart_guest", StoredStr.emptyStr)]).2.1 rfl,
   (C2_read_behavior (some ⟨"Ann", "a@b.c", "pw1234", "addr"⟩)
      [("fs_cart_a@b.c", StoredStr.malformed)]).2.2 rfl⟩

/-- C3: with no active principal, `addToCart` returns after the login
check with the unauthenticated signal (a floating message, not an
exception) and the state — the store at every key and the refresh count —
unchanged, for every stored cart and product. -/
theorem C3_unauthenticated_add (st : St) (p : Product) :
    addToCart none st p = .ok (.unauthenticated, st) := rfl

/-- C9 counterexample: a principal with the non-empty email `"guest"`
resolves to the same key as the guest state, so the claim's "never equal
for any non-empty email" fails. -/
theorem C9_counterexample :
    guestImpostor.email ≠ "" ∧
    getCartKey (some guestImpostor) = getCartKey none := by
  decide

/-- C9 (amended): for every principal whose email is not the literal
string `"guest"`, the authenticated key differs from the guest key; and
the resolver is deterministic (equal principal states yield equal keys). -/
theorem C9_key_separation (p : Principal) (h : p.email ≠ "guest")
    (u₁ u₂ : Option Principal) (he : u₁ = u₂) :
    getCartKey (some p) ≠ getCartKey none ∧ getCartKey u₁ = getCartKey u₂ := by
  refine ⟨?_, by rw [he]⟩
  simp only [getCartKey]
  intro heq
  apply h
  have h2 : ("fs_cart_" ++ p.email).data =
      ("fs_cart_" ++ "guest" : String).data := by
    rw [heq]; rfl
  simp only [String.data_append] at h2
  exact String.ext (List.append_cancel_left h2)

/-- C9 witness: a concrete validated email. -/
theorem C9_key_separation_witness :
    getCartKey (some ⟨"Ann", "a@b.c", "pw1234", "addr"⟩) ≠ getCartKey none ∧
    getCartKey (some ⟨"Ann", "a@b.c", "pw1234", "addr"⟩) =
      getCartKey (some ⟨"Ann", "a@b.c", "pw1234", "addr"⟩) :=
  C9_key_separation ⟨"Ann", "a@b.c", "pw1234", "addr"⟩ (by decide)
    (some ⟨"Ann", "a@b.c", "pw1234", "addr"⟩)
    (some ⟨"Ann", "a@b.c", "pw1234", "addr"⟩) rfl

/-- C4: with an active principal and a stored cart with no line item for
`p.id`, the first `addToCart p` appends `{ ...p, qty: 1 }` and saves; the
second signals `DuplicateItem` and leaves the state alone; the persisted
cart afterwards has exactly one line item with `p.id`, and its qty is 1. -/
theorem C4_duplicate_add (u : Principal) (st : St) (p : Product)
    (cart : List LineItem)
    (hget : getCart (some u) st.store = .ok cart)
    (hnew : ∀ item ∈ cart, item.id ≠ p.id) :
    addToCart (some u) st p =
      .ok (.added, saveCart (some u) st (cart ++ [p.withQty 1])) ∧
    addToCart (some u) (saveCart (some u) st (cart ++ [p.withQty 1])) p =
      .ok (.duplicateItem, saveCart (some u) st (cart ++ [p.withQty 1])) ∧
    getCart (some u) (saveCart (some u) st (cart ++ [p.withQty 1])).store =
      .ok (cart ++ [p.withQty 1]) ∧
    (cart ++ [p.withQty 1]).filter (fun item => item.id = p.id) =
      [p.withQty 1] := by
  have hany : cart.any (fun item => item.id = p.id) = false := by
    rw [List.any_eq_false]
    intro x hx
    simpa using hnew x hx
  have hany1 : (cart ++ [p.withQty 1]).any (fun item => item.id = p.id) =
      true := by
    rw [List.any_eq_true]
    exact ⟨p.withQty 1, by simp, by simp [Product.withQty]⟩
  refine ⟨?_, ?_, getCart_saveCart _ _ _, ?_⟩
  · rw [addToCart_some u st p cart hget, hany]
    rfl
  · rw [addToCart_some u (saveCart (some u) st (cart ++ [p.withQty 1])) p
      (cart ++ [p.withQty 1]) (getCart_saveCart _ _ _), hany1]
    rfl
  · have hfil : cart.filter (fun item => item.id = p.id) = [] := by
      rw [List.filter_eq_nil_iff]
      intro x hx
      simpa using hnew x hx
    rw [List.filter_append, hfil]
    simp [Product.withQty]

/-- C4 witness: adding the sample product twice to an empty guest-user
state. -/
theorem C4_duplicate_add_witness :
    addToCart (some uSample) ⟨[], 0⟩ pSample =
      .ok (.added, saveCart (some uSample) ⟨[], 0⟩
        ([] ++ [pSample.withQty 1])) ∧
    addToCart (some uSample)
        (saveCart (some uSample) ⟨[], 0⟩ ([] ++ [pSample.withQty 1]))
        pSample =
      .ok (.duplicateItem, saveCart (some uSample) ⟨[], 0⟩
        ([] ++ [pSample.withQty 1])) ∧
    getCart (some uSample)
        (saveCart (some uSample) ⟨[], 0⟩
          ([] ++ [pSample.withQty 1])).store =
      .ok ([] ++ [pSample.withQty 1]) ∧
    ([] ++ [pSample.withQty 1]).filter
        (fun item => item.id = pSample.id) = [pSample.withQty 1] :=
  C4_duplicate_add uSample ⟨[], 0⟩ pSample [] rfl (by simp)

/-- C5: when the id is present and the updated qty is `<= 0`, the items
with that id are filtered out, the filtered cart is what gets persisted,
and no line item with that id remains in it. -/
theorem C5_remove_on_nonpositive (user : Option Principal) (st : St)
    (id delta : Int) (cart : List LineItem) (item : LineItem)
    (hget : getCart user st.store = .ok cart)
    (hfind : cart.find? (fun i => i.id = id) = some item)
    (hle : item.qty + delta ≤ 0) :
    updateQuantity user st id delta =
      .ok (saveCart user st (cart.filter (fun i => i.id ≠ id))) ∧
    getCart user
        (saveCart user st (cart.filter (fun i => i.id ≠ id))).store =
      .ok (cart.filter (fun i => i.id ≠ id)) ∧
    ∀ i ∈ cart.filter (fun i => i.id ≠ id), i.id ≠ id := by
  refine ⟨?_, getCart_saveCart _ _ _, ?_⟩
  · rw [updateQuantity_found user st id delta cart item hget hfind]
    exact if_pos hle
  · intro i hi
    have := List.of_mem_filter hi
    simpa using this

/-- C5 witness: `updateQuantity(1, -qty)` on the sample item (qty 2)
removes it. -/
theorem C5_remove_on_nonpositive_witness :
    updateQuantity none stSample 1 (-2) =
      .ok (saveCart none stSample
        ([itemSample].filter (fun i => i.id ≠ 1))) ∧
    getCart none
        (saveCart none stSample
          ([itemSample].filter (fun i => i.id ≠ 1))).store =
      .ok ([itemSample].filter (fun i => i.id ≠ 1)) ∧
    ∀ i ∈ [itemSample].filter (fun i => i.id ≠ 1), i.id ≠ 1 :=
  C5_remove_on_nonpositive none stSample 1 (-2) [itemSample] itemSample
    rfl rfl (by decide)

/-- C6 counterexample: with an id absent from the cart, `updateQuantity`
takes the early `return` and never calls `saveCart`, so the dependent-view
refresh is not triggered — refuting "calls saveCart with the resulting
sequence regardless of which branch is taken". -/
theorem C6_counterexample :
    ¬ ∀ (user : Option Principal) (st : St) (id delta : Int) (st' : St),
        updateQuantity user st id delta = .ok st' →
        st'.refreshes = st.refreshes + 1 := by
  intro h
  have := h none ⟨[], 0⟩ 1 1 ⟨[], 0⟩ rfl
  simp at this

/-- C6 (amended): when the id is found, `updateQuantity` calls `saveCart`
with the resulting sequence in both qty branches, and `saveCart` persists
that sequence at the resolved key and triggers exactly one view refresh;
when the id is absent, `updateQuantity` returns without saving, leaving
the state unchanged. -/
theorem C6_save_behavior (user : Option Principal) (st : St)
    (id delta : Int) (cart : List LineItem)
    (hget : getCart user st.store = .ok cart) :
    (cart.find? (fun i => i.id = id) = none →
      updateQuantity user st id delta = .ok st) ∧
    (∀ item, cart.find? (fun i => i.id = id) = some item →
      updateQuantity user st id delta =
        .ok (saveCart user st
          (if item.qty + delta ≤ 0 then cart.filter (fun i => i.id ≠ id)
           else setQtyFirst id (item.qty + delta) cart))) ∧
    (∀ cart' : List LineItem,
      getCart user (saveCart user st cart').store = .ok cart' ∧
      (saveCart user st cart').refreshes = st.refreshes + 1) := by
  refine ⟨fun hnone => updateQuantity_not_found user st id delta cart hget
      hnone,
    fun item hfind => ?_,
    fun cart' => ⟨getCart_saveCart _ _ _, rfl⟩⟩
  rw [updateQuantity_found user st id delta cart item hget hfind]
  split <;> rfl

/-- C6 witness: id 1 is present in the sample state (save happens), id 2
is absent (no-op). -/
theorem C6_save_behavior_witness :
    updateQuantity none stSample 1 1 =
      .ok (saveCart none stSample
        (if itemSample.qty + 1 ≤ 0 then
          [itemSample].filter (fun i => i.id ≠ 1)
         else setQtyFirst 1 (itemSample.qty + 1) [itemSample])) ∧
    updateQuantity none stSample 2 1 = .ok stSample :=
  ⟨(C6_save_behavior none stSample 1 1 [itemSample] rfl).2.1 itemSample rfl,
   (C6_save_behavior none stSample 2 1 [itemSample] rfl).1 rfl⟩

/-- C7: if the persisted cart at the resolved key satisfies the invariant
(no duplicate ids, all qty positive), then after any successful
`addToCart`, `updateQuantity` or `removeItem`, whatever cart a fresh read
yields still satisfies it. -/
theorem C7_invariant_preserved (user : Option Principal) (st : St)
    (cart : List LineItem) (hget : getCart user st.store = .ok cart)
    (hinv : CartInv cart) :
    (∀ p r st', addToCart user st p = .ok (r, st') →
      ∀ cart', getCart user st'.store = .ok cart' → CartInv cart') ∧
    (∀ id delta st', updateQuantity user st id delta = .ok st' →
      ∀ cart', getCart user st'.store = .ok cart' → CartInv cart') ∧
    (∀ id st', removeItem user st id = .ok st' →
      ∀ cart', getCart user st'.store = .ok cart' → CartInv cart') := by
  have fromEq : ∀ (st' : St) (X cart' : List LineItem),
      getCart user st'.store = .ok X → CartInv X →
      getCart user st'.store = .ok cart' → CartInv cart' := by
    intro st' X cart' hX hXinv hcart'
    rw [hX] at hcart'
    obtain rfl : X = cart' := by simpa using hcart'
    exact hXinv
  refine ⟨?_, ?_, ?_⟩
  · intro p r st' h cart' hcart'
    match user with
    | none =>
      have h' : (Except.ok (AddResult.unauthenticated, st) :
          Except JsError (AddResult × St)) = .ok (r, st') := h
      obtain ⟨-, rfl⟩ : AddResult.unauthenticated = r ∧ st = st' := by
        simpa using h'
      exact fromEq st cart cart' hget hinv hcart'
    | some u =>
      rw [addToCart_some u st p cart hget] at h
      split at h
      · obtain ⟨-, rfl⟩ : AddResult.duplicateItem = r ∧ st = st' := by
          simpa using h
        exact fromEq st cart cart' hget hinv hcart'
      · rename_i hcond
        rw [Bool.not_eq_true] at hcond
        obtain ⟨-, rfl⟩ : AddResult.added = r ∧
            saveCart (some u) st (cart ++ [p.withQty 1]) = st' := by
          simpa using h
        exact fromEq _ (cart ++ [p.withQty 1]) cart'
          (getCart_saveCart _ _ _) (cartInv_append_new cart p hinv hcond)
          hcart'
  · intro id delta st' h cart' hcart'
    cases hfind : cart.find? (fun i => i.id = id) with
    | none =>
      rw [updateQuantity_not_found user st id delta cart hget hfind] at h
      obtain rfl : st = st' := by simpa using h
      exact fromEq st cart cart' hget hinv hcart'
    | some item =>
      rw [updateQuantity_found user st id delta cart item hget hfind] at h
      split at h
      · obtain rfl : saveCart user st (cart.filter (fun i => i.id ≠ id)) =
            st' := by simpa using h
        exact fromEq _ _ cart' (getCart_saveCart _ _ _)
          (cartInv_filter cart _ hinv) hcart'
      · rename_i hpos
        obtain rfl : saveCart user st
            (setQtyFirst id (item.qty + delta) cart) = st' := by
          simpa using h
        refine fromEq _ _ cart' (getCart_saveCart _ _ _) ⟨?_, ?_⟩ hcart'
        · rw [setQtyFirst_map_id]
          exact hinv.1
        · exact setQtyFirst_qty_pos id (item.qty + delta) cart
            (by omega) hinv.2
  · intro id st' h cart' hcart'
    unfold removeItem at h
    rw [hget] at h
    simp only [except_bind_ok] at h
    obtain rfl : saveCart user st
        (cart.filter (fun item => item.id ≠ id)) = st' := by simpa using h
    exact fromEq _ _ cart' (getCart_saveCart _ _ _)
      (cartInv_filter cart _ hinv) hcart'

/-- C7 witness: removing id 1 from the sample state preserves the
invariant of the freshly read cart. -/
theorem C7_invariant_preserved_witness :
    CartInv ([itemSample].filter (fun item => item.id ≠ 1)) :=
  (C7_invariant_preserved none stSample [itemSample] rfl
      ⟨by decide, by decide⟩).2.2 1
    (saveCart none stSample ([itemSample].filter (fun item => item.id ≠ 1)))
    rfl ([itemSample].filter (fun item => item.id ≠ 1)) rfl

/-- C8: reading right after `saveCart X` under the same active principal
yields `X` (serialize/parse round-trip), and reading a namespace with no
stored entry yields the empty sequence. -/
theorem C8_roundtrip (user : Option Principal) (st : St)
    (X : List LineItem) :
    getCart user (saveCart user st X).store = .ok X ∧
    (getItem st.store (getCartKey user) = none →
      getCart user st.store = .ok []) :=
  ⟨getCart_saveCart user st X, fun h => by simp [getCart, h]⟩

/-- C8 witness: round trip of `[itemSample]` from the empty store, and a
read from the empty store. -/
theorem C8_roundtrip_witness :
    getCart none (saveCart none ⟨[], 0⟩ [itemSample]).store =
      .ok [itemSample] ∧
    getCart none (⟨[], 0⟩ : St).store = .ok [] :=
  ⟨(C8_roundtrip none ⟨[], 0⟩ [itemSample]).1,
   (C8_roundtrip none ⟨[], 0⟩ [itemSample]).2 rfl⟩

/-- C10: an empty-string entry at the resolved key is falsy, so `getCart`
takes the `'[]'` fallback and returns the empty sequence, and `cartCount`
returns 0. -/
theorem C10_empty_string_entry (user : Option Principal) (store : Store)
    (h : getItem store (getCartKey user) = some .emptyStr) :
    getCart user store = .ok [] ∧ cartCount user store = .ok 0 := by
  have hg : getCart user store = .ok [] := by simp [getCart, h]
  refine ⟨hg, ?_⟩
  unfold cartCount
  rw [hg]
  rfl

/-- C10 witness: the guest namespace holding the empty string. -/
theorem C10_empty_string_entry_witness :
    getCart none [("fs_cart_guest", StoredStr.emptyStr)] = .ok [] ∧
    cartCount none [("fs_cart_guest", StoredStr.emptyStr)] = .ok 0 :=
  C10_empty_string_entry none [("fs_cart_guest", StoredStr.emptyStr)] rfl

end Ecommerce
